import Mathlib

/-!
# OmniSec dev-server proxy configuration: a shallow embedding

The repository consists of a single build-tool configuration file,
`src/frontend/vite.config.js`, which configures a frontend development
server (listening port 3000) and one proxy rule: any request whose path
starts with "/api" is forwarded to the upstream origin
"http://localhost:8000", with `changeOrigin: true` and the path rewrite
`(path) => path.replace(/^\/api/, "")`.

This file embeds the configuration values and the rewrite function from
the source, and models the surrounding router behaviour (match dispatch,
outbound-request construction, Host-header handling, upstream error
handling) from the specification, since the router machinery itself is
not part of the repository's source.
-/

namespace OmniSec

/-- Boolean test: the first list is an initial segment of the second
(raw character-by-character anchored match, case sensitive). -/
def listStarts : List Char → List Char → Bool
  | [], _ => true
  | _ :: _, [] => false
  | a :: as, b :: bs => if a = b then listStarts as bs else false

/-- Boolean test: string `p` is an initial segment of string `s`
(the anchored raw string match performed by the regex `^\/api` and by the
router's match policy). -/
def strStarts (p s : String) : Bool :=
  listStarts p.data s.data

/-- Embedding of the rewrite arrow function at
`src/frontend/vite.config.js:13`:
`rewrite: (path) => path.replace(/^\/api/, "")`.
JavaScript `String.prototype.replace` with the start-anchored regex
`/^\/api/` removes the literal four characters "/api" at the start of the
string, at most once, and returns any other string unchanged ("/api" has
length 4, hence `drop 4`). -/
def rewrite (path : String) : String :=
  if strStarts "/api" path then String.mk (path.data.drop 4) else path

/-- The rewrite arrow function at `src/frontend/vite.config.js:13` closes
over no mutable state: evaluated in an arbitrary ambient process state it
returns `rewrite` of its argument and leaves the state untouched. -/
def rewriteEval {σ : Type} (st : σ) (path : String) : String × σ :=
  (rewrite path, st)

/-- One proxy rule, as declared under `server.proxy` in
`src/frontend/vite.config.js` (the match key lives outside the rule
object, mirroring the source's map-from-key-to-rule shape). -/
structure ProxyRule where
  target : String
  changeOrigin : Bool
  rewriteFn : String → String

/-- The `server` block of `src/frontend/vite.config.js`: a listening port
and a map (association list) from match key to proxy rule. -/
structure ServerConfig where
  port : Nat
  proxy : List (String × ProxyRule)

/-- The single rule declared under the "/api" key at
`src/frontend/vite.config.js:9-14`. -/
def apiRule : ProxyRule :=
  { target := "http://localhost:8000"
    changeOrigin := true
    rewriteFn := rewrite }

/-- The static `server` configuration at `src/frontend/vite.config.js:6-16`:
port 3000 and the single "/api" proxy rule. -/
def serverConfig : ServerConfig :=
  { port := 3000
    proxy := [("/api", apiRule)] }

/-- An HTTP request as the spec describes it: path, method, query string,
Host header (kept as its own field because the router treats it
specially), remaining headers, and body. -/
structure Request where
  method : String
  path : String
  query : String
  host : String
  headers : List (String × String)
  body : String
deriving DecidableEq

/-- Modelled from the spec: "the host portion of `target_origin`", where
`target_origin` is a string of shape `scheme://host:port`. Drops the
scheme up to and including the "://" separator. -/
def afterSchemeSep : List Char → List Char
  | [] => []
  | ':' :: '/' :: '/' :: rest => rest
  | _ :: rest => afterSchemeSep rest

/-- Modelled from the spec: the host-and-port portion ends at the first
'/' (the start of a path), if any. -/
def upToSlash : List Char → List Char
  | [] => []
  | '/' :: _ => []
  | c :: rest => c :: upToSlash rest

/-- Modelled from the spec: extract the `host:port` portion of an origin
string of shape `scheme://host:port`. -/
def hostOf (origin : String) : String :=
  String.mk (upToSlash (afterSchemeSep origin.data))

/-- Modelled from the spec: "Construct an outbound request to
`target_origin` with `new_path`, preserving method, headers, query
string, and body. If `change_origin` is true, set the outbound `Host`
header to the host portion of `target_origin`; otherwise preserve the
original `Host` header." -/
def outbound (rule : ProxyRule) (req : Request) : Request :=
  { method := req.method
    path := rule.rewriteFn req.path
    query := req.query
    host := if rule.changeOrigin then hostOf rule.target else req.host
    headers := req.headers
    body := req.body }

/-- The router's per-request decision: forward a transformed request to
the upstream origin, or serve the request locally. -/
inductive RouteAction where
  | forward : Request → RouteAction
  | serveLocal : Request → RouteAction
deriving DecidableEq

/-- Modelled from the spec: the match policy is "a simple string-prefix
test on the unmodified path (case-sensitive, anchored at the start)";
on match the request is transformed and forwarded, on no match it falls
through to local handling. -/
def route (cfg : ServerConfig) (req : Request) : RouteAction :=
  match cfg.proxy.find? (fun p => strStarts p.1 req.path) with
  | some (_, rule) => RouteAction.forward (outbound rule req)
  | none => RouteAction.serveLocal req

/-- The upstream origin's observable behaviour on one forwarded request:
a response (status, headers, body), or a connection-level error
(connection refused, timeout, protocol error). -/
inductive UpstreamResult where
  | ok : Nat → List (String × String) → String → UpstreamResult
  | connError : UpstreamResult

/-- What the original caller observes: a response, or local handling
outside the proxy component's scope. -/
inductive Outcome where
  | response : Nat → List (String × String) → String → Outcome
  | localHandled : Request → Outcome
deriving DecidableEq

/-- Modelled from the spec: per-request handling. On match, make exactly
one forwarding attempt; stream an upstream response back unchanged, and
surface an upstream connection error as a gateway-style 502 failure
(never a crash: this function is total). On no match, fall through to
local handling with zero forwarding attempts. The second component
counts forwarding attempts made. -/
def handle (cfg : ServerConfig) (upstream : Request → UpstreamResult)
    (req : Request) : Outcome × Nat :=
  match route cfg req with
  | RouteAction.forward out =>
    match upstream out with
    | UpstreamResult.ok s hs b => (Outcome.response s hs b, 1)
    | UpstreamResult.connError =>
        (Outcome.response 502 [("content-type", "text/plain")] "Bad Gateway", 1)
  | RouteAction.serveLocal r => (Outcome.localHandled r, 0)

/-- A concrete non-matching request, used to instantiate the
no-match theorems. -/
def reqStatic : Request :=
  { method := "GET"
    path := "/static/logo.png"
    query := ""
    host := "localhost:3000"
    headers := [("accept", "image/png")]
    body := "" }

/-- A concrete matching request, used to instantiate the
matched-request theorems. -/
def reqApi : Request :=
  { method := "GET"
    path := "/api/items/42"
    query := ""
    host := "localhost:3000"
    headers := [("accept", "application/json")]
    body := "" }

/-- A concrete request whose path is exactly "/api". -/
def reqApiExact : Request :=
  { method := "GET"
    path := "/api"
    query := ""
    host := "localhost:3000"
    headers := []
    body := "" }

theorem listStarts_append (l s : List Char) : listStarts l (l ++ s) = true := by
  induction l with
  | nil => rfl
  | cons a as ih => simp [listStarts, ih]

theorem strStarts_append (p s : String) : strStarts p (p ++ s) = true := by
  unfold strStarts
  rw [String.data_append]
  exact listStarts_append p.data s.data

theorem rewrite_append (s : String) : rewrite ("/api" ++ s) = s := by
  unfold rewrite
  rw [strStarts_append "/api" s, if_pos rfl]
  have hdata : ("/api" ++ s).data = '/' :: 'a' :: 'p' :: 'i' :: s.data := by
    rw [String.data_append]; rfl
  rw [hdata]
  rfl

theorem route_match (req : Request) (hm : strStarts "/api" req.path = true) :
    route serverConfig req = RouteAction.forward (outbound apiRule req) := by
  unfold route serverConfig
  simp [List.find?, hm]

theorem route_nomatch (req : Request) (hm : strStarts "/api" req.path = false) :
    route serverConfig req = RouteAction.serveLocal req := by
  unfold route serverConfig
  simp [List.find?, hm]

theorem hostOf_target : hostOf "http://localhost:8000" = "localhost:8000" := by
  decide

/-- C1: for every string `s`, `rewrite ("/api" ++ s) = s` — the leading
"/api" is removed exactly once; in particular "/api/users" ↦ "/users",
"/api/items/42" ↦ "/items/42", and a second "/api" later in the path
survives: "/api/api/x" ↦ "/api/x". -/
theorem rewrite_strips_leading_api :
    (∀ s : String, rewrite ("/api" ++ s) = s) ∧
    rewrite "/api/users" = "/users" ∧
    rewrite "/api/items/42" = "/items/42" ∧
    rewrite "/api/api/x" = "/api/x" :=
  ⟨rewrite_append, by decide, by decide, by decide⟩

/-- C2: `rewrite` is a total function on strings (it is a Lean `def`,
total by construction), and every string that does not start with the
raw four-character sequence "/api" is returned unchanged. -/
theorem rewrite_id_of_no_api (p : String)
    (h : strStarts "/api" p = false) : rewrite p = p := by
  unfold rewrite
  rw [h]
  rfl

theorem rewrite_id_of_no_api_witness :
    strStarts "/api" "/static/logo.png" = false ∧
    rewrite "/static/logo.png" = "/static/logo.png" :=
  ⟨by decide, rewrite_id_of_no_api "/static/logo.png" (by decide)⟩

/-- C3: a request whose path does not start with "/api" is never
rewritten or forwarded: the router serves it locally with the request
unchanged, makes zero forwarding attempts (so the upstream origin is
never contacted, whatever its behaviour), and the outcome is local
handling, not an error response. -/
theorem no_match_fallthrough (req : Request) (up : Request → UpstreamResult)
    (hm : strStarts "/api" req.path = false) :
    route serverConfig req = RouteAction.serveLocal req ∧
    handle serverConfig up req = (Outcome.localHandled req, 0) := by
  have hr := route_nomatch req hm
  refine ⟨hr, ?_⟩
  unfold handle
  rw [hr]

theorem no_match_fallthrough_witness :
    strStarts "/api" reqStatic.path = false ∧
    (route serverConfig reqStatic = RouteAction.serveLocal reqStatic ∧
     handle serverConfig (fun _ => UpstreamResult.connError) reqStatic =
       (Outcome.localHandled reqStatic, 0)) :=
  ⟨by decide,
   no_match_fallthrough reqStatic (fun _ => UpstreamResult.connError) (by decide)⟩

/-- C4: for every matched request, the outbound Host header equals
"localhost:8000" (the host portion of the target origin, because
`changeOrigin` is true), and it does not depend on the inbound Host
header: changing the inbound Host to any two values yields the same
outbound Host. -/
theorem host_header_fixed (req : Request) (h1 h2 : String)
    (hm : strStarts "/api" req.path = true) :
    route serverConfig req = RouteAction.forward (outbound apiRule req) ∧
    (outbound apiRule req).host = "localhost:8000" ∧
    (outbound apiRule { req with host := h1 }).host =
      (outbound apiRule { req with host := h2 }).host := by
  refine ⟨route_match req hm, ?_, rfl⟩
  show (if apiRule.changeOrigin then hostOf apiRule.target else req.host) = "localhost:8000"
  rw [show apiRule.changeOrigin = true from rfl, if_pos rfl]
  exact hostOf_target

theorem host_header_fixed_witness :
    strStarts "/api" reqApi.path = true ∧
    (route serverConfig reqApi = RouteAction.forward (outbound apiRule reqApi) ∧
     (outbound apiRule reqApi).host = "localhost:8000" ∧
     (outbound apiRule { reqApi with host := "evil.example" }).host =
       (outbound apiRule { reqApi with host := "other.example" }).host) :=
  ⟨by decide, host_header_fixed reqApi "evil.example" "other.example" (by decide)⟩

/-- C5: for every matched request the outbound request preserves the
method, query string, body and all (non-Host) headers of the inbound
request; only the path changes, to `rewrite` of the inbound path.
Moreover, when the upstream answers, its response (status, headers,
body) is returned to the caller unchanged, in one forwarding attempt. -/
theorem outbound_frame (req : Request) (up : Request → UpstreamResult)
    (s : Nat) (hs : List (String × String)) (b : String)
    (hm : strStarts "/api" req.path = true)
    (hup : up (outbound apiRule req) = UpstreamResult.ok s hs b) :
    route serverConfig req = RouteAction.forward (outbound apiRule req) ∧
    (outbound apiRule req).method = req.method ∧
    (outbound apiRule req).query = req.query ∧
    (outbound apiRule req).headers = req.headers ∧
    (outbound apiRule req).body = req.body ∧
    (outbound apiRule req).path = rewrite req.path ∧
    handle serverConfig up req = (Outcome.response s hs b, 1) := by
  have hr := route_match req hm
  refine ⟨hr, rfl, rfl, rfl, rfl, rfl, ?_⟩
  simp [handle, hr, hup]

theorem outbound_frame_witness :
    strStarts "/api" reqApi.path = true ∧
    (fun _ => UpstreamResult.ok 200 [] "42") (outbound apiRule reqApi) =
      UpstreamResult.ok 200 [] "42" ∧
    (route serverConfig reqApi = RouteAction.forward (outbound apiRule reqApi) ∧
     (outbound apiRule reqApi).method = reqApi.method ∧
     (outbound apiRule reqApi).query = reqApi.query ∧
     (outbound apiRule reqApi).headers = reqApi.headers ∧
     (outbound apiRule reqApi).body = reqApi.body ∧
     (outbound apiRule reqApi).path = rewrite reqApi.path ∧
     handle serverConfig (fun _ => UpstreamResult.ok 200 [] "42") reqApi =
       (Outcome.response 200 [] "42", 1)) :=
  ⟨by decide, rfl,
   outbound_frame reqApi (fun _ => UpstreamResult.ok 200 [] "42") 200 [] "42"
     (by decide) rfl⟩

/-- C6: for every matched request whose forwarding attempt hits an
upstream connection error, the caller receives a gateway-style 502
failure, exactly one forwarding attempt is made, and handling still
returns normally (the handler is a total function: no crash). -/
theorem upstream_error_gateway (req : Request) (up : Request → UpstreamResult)
    (hm : strStarts "/api" req.path = true)
    (he : up (outbound apiRule req) = UpstreamResult.connError) :
    handle serverConfig up req =
      (Outcome.response 502 [("content-type", "text/plain")] "Bad Gateway", 1) := by
  simp [handle, route_match req hm, he]

theorem upstream_error_gateway_witness :
    strStarts "/api" reqApi.path = true ∧
    (fun _ => UpstreamResult.connError) (outbound apiRule reqApi) =
      UpstreamResult.connError ∧
    handle serverConfig (fun _ => UpstreamResult.connError) reqApi =
      (Outcome.response 502 [("content-type", "text/plain")] "Bad Gateway", 1) :=
  ⟨by decide, rfl,
   upstream_error_gateway reqApi (fun _ => UpstreamResult.connError)
     (by decide) rfl⟩

/-- C7: the rewrite dispatch is deterministic, pure and stateless:
evaluated in any two ambient process states it produces the same output
string, that output is `rewrite` of the input (a function of the input
string alone), and the ambient state is left unchanged. -/
theorem rewrite_stateless {σ : Type} (s1 s2 : σ) (p : String) :
    (rewriteEval s1 p).1 = (rewriteEval s2 p).1 ∧
    rewriteEval s1 p = (rewrite p, s1) :=
  ⟨rfl, rfl⟩

/-- C8: the configuration is the static value built once from the source
literals — port 3000, single match key "/api", target origin
"http://localhost:8000", changeOrigin true, rewrite function `rewrite` —
and, being a pure constant that no operation in the model mutates, it is
immutable for the lifetime of the process. -/
theorem config_static :
    serverConfig.port = 3000 ∧
    serverConfig.proxy = [("/api", apiRule)] ∧
    apiRule.target = "http://localhost:8000" ∧
    apiRule.changeOrigin = true ∧
    apiRule.rewriteFn = rewrite :=
  ⟨rfl, rfl, rfl, rfl, rfl⟩

/-- C9: the match-and-strip semantics is raw string prefix, not
path-segment boundary: "/apiary" and "/apiville" both start with the
four characters "/api" and are stripped, giving "ary" and "ville". -/
theorem rewrite_raw_string_semantics :
    strStarts "/api" "/apiary" = true ∧
    strStarts "/api" "/apiville" = true ∧
    rewrite "/apiary" = "ary" ∧
    rewrite "/apiville" = "ville" := by
  refine ⟨by decide, by decide, by decide, by decide⟩

/-- C10: on the input that is exactly the match key, the rewrite returns
the empty string (not "/"), and a request to exactly "/api" is forwarded
upstream with an empty path. -/
theorem rewrite_exact_key_empty :
    rewrite "/api" = "" ∧
    rewrite "/api" ≠ "/" ∧
    route serverConfig reqApiExact =
      RouteAction.forward (outbound apiRule reqApiExact) ∧
    (outbound apiRule reqApiExact).path = "" := by
  refine ⟨by decide, by decide, ?_, by decide⟩
  decide

end OmniSec
